import Mathlib

/-!
Verification development for the `buscemi` UCI engine client.

The definitions below are a shallow embedding of the repository's Python
sources (`src/buscemi/parsing.py`, `src/buscemi/models.py`,
`src/buscemi/connection.py`, `src/buscemi/__init__.py`).  Python machine
behaviour that the code relies on is modelled explicitly: truthiness,
`str.strip`/`str.lower`/`str.split`, `dict` insertion-order semantics, and
the backtracking semantics of the two `re` patterns.  Fallible code returns
`Except`/`Option`; stateful code is explicit state passing on a session
state record.
-/

namespace Buscemi

/-- Python whitespace class: the characters matched by the regex class \s
and stripped by `str.strip()` (space, tab, newline, carriage return,
vertical tab, form feed). -/
def pyIsSpace (c : Char) : Bool :=
  c == ' ' || c == '\t' || c == '\n' || c == '\r' || c == '\x0b' || c == '\x0c'

/-- Python `str.strip()`: remove leading and trailing whitespace. -/
def pyStrip (s : String) : String :=
  String.mk (((s.data.dropWhile pyIsSpace).reverse.dropWhile pyIsSpace).reverse)

/-- Python `str.lower()` (ASCII suffices for this protocol). -/
def pyLower (s : String) : String :=
  String.mk (s.data.map Char.toLower)

/-- Python truthiness of a string: nonempty. -/
def pyTruthyStr (s : String) : Bool :=
  !(s == "")

/-- Python `s.startswith(pre)`. -/
def pyStartswith (s pre : String) : Bool :=
  List.isPrefixOf pre.data s.data

/-- Worker for `pySplit`: scan left to right, cutting at each
non-overlapping occurrence of the separator.  The fuel argument only
bounds the recursion; `pySplit` supplies enough for it never to run out. -/
def pySplitAux (sep : List Char) : Nat → List Char → List Char → List (List Char)
  | _, [], acc => [acc.reverse]
  | 0, cs, acc => [acc.reverse ++ cs]
  | fuel + 1, c :: cs, acc =>
    if List.isPrefixOf sep (c :: cs) then
      acc.reverse :: pySplitAux sep fuel ((c :: cs).drop sep.length) []
    else
      pySplitAux sep fuel cs (c :: acc)

/-- Python `s.split(sep)` for a non-empty separator: split on each
non-overlapping occurrence, left to right; always at least one piece. -/
def pySplit (s sep : String) : List String :=
  (pySplitAux sep.data (s.data.length + 1) s.data []).map String.mk

/-- Value of a digit string, most significant digit first. -/
def digitsToNat (cs : List Char) : Nat :=
  cs.foldl (fun a c => a * 10 + (c.toNat - 48)) 0

/-- Python `int()` applied to a string already known to match `-?\d+`. -/
def signedToInt : List Char → Int
  | '-' :: rest => - (digitsToNat rest : Int)
  | cs => (digitsToNat cs : Int)

/-- Python `dict` assignment `d[k] = v`: replace in place if the key exists
(keeping its original position), else append.  Dicts are modelled as
association lists in insertion order with unique keys. -/
def pyDictSet {α : Type} (d : List (String × α)) (k : String) (v : α) :
    List (String × α) :=
  if d.any (fun p => p.1 == k) then
    d.map (fun p => if p.1 == k then (k, v) else p)
  else d ++ [(k, v)]

/-- Build a Python dict from a sequence of key/value pairs (later duplicate
keys overwrite earlier ones), as in a dict comprehension. -/
def pyDict {α : Type} (xs : List (String × α)) : List (String × α) :=
  xs.foldl (fun d p => pyDictSet d p.1 p.2) []

/-- Python `d.get(k)` / `k in d` combined: the value stored under `k`. -/
def pyDictGet {α : Type} (d : List (String × α)) (k : String) : Option α :=
  (d.find? (fun p => p.1 == k)).map (fun p => p.2)

/-- Python `d.update(xs)`: sequential assignment of every pair. -/
def pyDictUpdate {α : Type} (d : List (String × α)) (xs : List (String × α)) :
    List (String × α) :=
  xs.foldl (fun d p => pyDictSet d p.1 p.2) d

/-!
## The two `re` patterns of `parsing.py`

`OPTION_RE = ^option\s+name\s+(.+?)\s+type\s+(.+?)\s+default\s*(.+)?$` and
`INT_RE = ^(-?\d+)\s+min\s+(-?\d+)\s+max\s+(-?\d+)$` (VERBOSE spacing
removed).  They are modelled by a small backtracking interpreter that
follows the Python engine's alternative ordering exactly: a lazy group
tries the shortest capture first, greedy whitespace tries the longest run
first, and the trailing optional greedy group tries present-and-longest
before absent.  `.` does not match a newline.
-/

/-- One token of the two patterns used by `parsing.py`. -/
inductive RTok : Type
  | lit (w : List Char)
  | wsPlus
  | wsStar
  | grpLazy
  | grpOptGreedy
  | intGrp
deriving DecidableEq, Repr

/-- First success of `f` over the candidate list, in order: the regex
engine's backtracking order over the alternatives of one token. -/
def firstSome {α β : Type} (f : α → Option β) : List α → Option β
  | [] => none
  | a :: rest =>
    match f a with
    | some b => some b
    | none => firstSome f rest

/-- Consume a literal word, returning the remaining input. -/
def dropLit : List Char → List Char → Option (List Char)
  | [], cs => some cs
  | _ :: _, [] => none
  | w :: ws, c :: cs => if c == w then dropLit ws cs else none

/-- Length of the leading whitespace run. -/
def wsRunLen : List Char → Nat
  | [] => 0
  | c :: cs => if pyIsSpace c then wsRunLen cs + 1 else 0

/-- Split off a maximal leading digit run. -/
def digitRun : List Char → List Char × List Char
  | [] => ([], [])
  | c :: cs =>
    if c.isDigit then
      let (d, r) := digitRun cs
      (c :: d, r)
    else ([], c :: cs)

/-- Consume `-?\d+`.  The digit run is maximal; in both patterns the group
is followed by `\s+` or the end of the input, so a shorter run could never
make the remainder match and the engine's backtracking is irrelevant. -/
def takeIntTok (cs : List Char) : Option (List Char × List Char) :=
  match cs with
  | '-' :: rest =>
    let (d, r) := digitRun rest
    if d.isEmpty then none else some ('-' :: d, r)
  | _ =>
    let (d, r) := digitRun cs
    if d.isEmpty then none else some (d, r)

/-- Run a token list against the input, returning the captured groups of
the leftmost match in the Python engine's preference order, or `none`.
The pattern is anchored at both ends (`^ ... $`, input without newlines). -/
def reRun : List RTok → List Char → Option (List (Option (List Char)))
  | [], [] => some []
  | [], _ :: _ => none
  | .lit w :: ps, cs =>
    match dropLit w cs with
    | some rest => reRun ps rest
    | none => none
  | .wsPlus :: ps, cs =>
    let m := wsRunLen cs
    firstSome (fun k => reRun ps (cs.drop k)) ((List.range m).map (fun i => m - i))
  | .wsStar :: ps, cs =>
    let m := wsRunLen cs
    firstSome (fun k => reRun ps (cs.drop k)) ((List.range (m + 1)).map (fun i => m - i))
  | .grpLazy :: ps, cs =>
    firstSome
      (fun len =>
        let g := cs.take len
        if g.all (fun c => !(c == '\n')) then
          (reRun ps (cs.drop len)).map (fun caps => some g :: caps)
        else none)
      ((List.range cs.length).map (fun i => i + 1))
  | .grpOptGreedy :: ps, cs =>
    match
      firstSome
        (fun len =>
          let g := cs.take len
          if g.all (fun c => !(c == '\n')) then
            (reRun ps (cs.drop len)).map (fun caps => some g :: caps)
          else none)
        ((List.range cs.length).map (fun i => cs.length - i)) with
    | some r => some r
    | none => (reRun ps cs).map (fun caps => none :: caps)
  | .intGrp :: ps, cs =>
    match takeIntTok cs with
    | some (tok, rest) => (reRun ps rest).map (fun caps => some tok :: caps)
    | none => none

/-- Token form of `OPTION_RE`. -/
def OPTION_TOKS : List RTok :=
  [.lit "option".data, .wsPlus, .lit "name".data, .wsPlus, .grpLazy,
   .wsPlus, .lit "type".data, .wsPlus, .grpLazy,
   .wsPlus, .lit "default".data, .wsStar, .grpOptGreedy]

/-- `OPTION_RE.match(line)`: the captured `name`, `type` and optional
`default` groups. -/
def optionMatch (line : String) : Option (String × String × Option String) :=
  match reRun OPTION_TOKS line.data with
  | some [some n, some t, d] => some (String.mk n, String.mk t, d.map String.mk)
  | _ => none

/-- Token form of `INT_RE`. -/
def INT_TOKS : List RTok :=
  [.intGrp, .wsPlus, .lit "min".data, .wsPlus, .intGrp,
   .wsPlus, .lit "max".data, .wsPlus, .intGrp]

/-- `INT_RE.match(payload)`: captured (default, min, max) integers. -/
def intMatch (payload : String) : Option (Int × Int × Int) :=
  match reRun INT_TOKS payload.data with
  | some [some d, some mn, some mx] =>
    some (signedToInt d, signedToInt mn, signedToInt mx)
  | _ => none

/-!
## Data model
-/

/-- A Python runtime value as it can appear as an option value or a
descriptor default: `None`, a bool, an int, or a string. -/
inductive PyVal : Type
  | none
  | bool (b : Bool)
  | int (n : Int)
  | str (s : String)
deriving DecidableEq, Repr

/-- Python truthiness `bool(value)`. -/
def pyBool : PyVal → Bool
  | .none => false
  | .bool b => b
  | .int n => !(n == 0)
  | .str s => pyTruthyStr s

/-- Python `str(value)` as used by f-string interpolation. -/
def pyValStr : PyVal → String
  | .none => "None"
  | .bool true => "True"
  | .bool false => "False"
  | .int n => toString n
  | .str s => s

/-- Numeric view used by Python's `<`/`>` on ints (bools compare as 0/1);
a string compared with an int raises `TypeError`. -/
def pyNum : PyVal → Option Int
  | .int n => some n
  | .bool b => some (if b then 1 else 0)
  | _ => Option.none

/-- The exceptions raised by the code paths modelled here.  Python
exception classes are identified by the site that raises them. -/
inductive Err : Type
  | unknownOption (name : String)
  | keyErrorType (token : String)
  | malformedSpin (payload : String)
  | typeErrorSpinNone
  | attrErrorComboNone
  | attrErrorLower
  | funcWithValue (name : String)
  | enumBadValue (value : String) (allowed : List String)
  | intOutOfRange (lo hi value : Int)
  | typeErrorCompare
  | invalidPosition
  | fenAndMoves
deriving DecidableEq, Repr

/-- The type-specific payload of a parsed option descriptor, one
constructor per mapped type tag of `extract_option`.  The `enum` mapping
is the dict keyed by lowercased allowed value, storing original casing. -/
inductive OptData : Type
  | str (default : Option String)
  | int (default lo hi : Int)
  | enum (default : String) (values : List (String × String))
  | func
  | bool (default : Bool)
deriving DecidableEq, Repr

/-- A parsed option descriptor (the dict built by `extract_option`). -/
structure Opt : Type where
  name : String
  data : OptData
deriving DecidableEq, Repr

/-!
## `parsing.extract_option`
-/

/-- The literal dict `{"string": "str", "spin": "int", "combo": "enum",
"button": "func", "check": "bool"}`; `none` models the `KeyError` a lookup
of any other token raises. -/
def typeMap (t : String) : Option String :=
  if t = "string" then some "str"
  else if t = "spin" then some "int"
  else if t = "combo" then some "enum"
  else if t = "button" then some "func"
  else if t = "check" then some "bool"
  else none

/-- `parsing.extract_option(line)`.  `Except.ok none` is Python `None`
(line did not match `OPTION_RE`); `Except.error` models a raised
exception: `KeyError` on an unmapped type token, `ValueError` on a spin
default not matching `INT_RE`, `TypeError` on `INT_RE.match(None)` when a
spin line has no default group, `AttributeError` on `None.split` when a
combo line has no default group. -/
def extract_option (line : String) : Except Err (Option Opt) :=
  match optionMatch line with
  | Option.none => .ok Option.none
  | some (name, typTok, dflt) =>
    match typeMap typTok with
    | Option.none => .error (.keyErrorType typTok)
    | some t =>
      if t = "str" then .ok (some { name := name, data := .str dflt })
      else if t = "int" then
        match dflt with
        | Option.none => .error .typeErrorSpinNone
        | some payload =>
          match intMatch payload with
          | Option.none => .error (.malformedSpin payload)
          | some (d, lo, hi) => .ok (some { name := name, data := .int d lo hi })
      else if t = "enum" then
        match dflt with
        | Option.none => .error .attrErrorComboNone
        | some payload =>
          let values := (pySplit payload "var").map pyStrip
          .ok (some { name := name,
                      data := .enum (values.headD "")
                        (pyDict ((values.drop 1).map (fun x => (pyLower x, x)))) })
      else if t = "func" then .ok (some { name := name, data := .func })
      else .ok (some { name := name, data := .bool (dflt == some "true") })

/-!
## `parsing.format_set_option`
-/

/-- The default value of a descriptor, substituted when the `value`
argument is the `missing` sentinel. -/
def defaultVal : OptData → PyVal
  | .str Option.none => .none
  | .str (some s) => .str s
  | .int d _ _ => .int d
  | .enum d _ => .str d
  | .func => .none
  | .bool b => .bool b

/-- `parsing.format_set_option(opt, value=missing)`.  The `value?`
argument is `none` for the `missing` sentinel.  Errors model the raised
`ValueError`s, the `AttributeError` of `.lower()` on a non-string enum
value, and the `TypeError` of ordering a non-numeric value against the
spin bounds. -/
def format_set_option (opt : Opt) (value? : Option PyVal) : Except Err (String × PyVal) :=
  let value := match value? with
    | Option.none => defaultVal opt.data
    | some v => v
  match opt.data with
  | .func =>
    match value with
    | .none => .ok (opt.name, .none)
    | _ => .error (.funcWithValue opt.name)
  | .bool _ =>
    .ok (opt.name, .str (if pyBool value then "true" else "false"))
  | .enum _ vals =>
    match value with
    | .str s =>
      if vals.any (fun p => p.1 == pyLower s) then
        .ok (opt.name, .str ((((vals.find? (fun p => p.1 == pyLower s)).map
          (fun p => p.2))).getD ""))
      else .error (.enumBadValue s (vals.map (fun p => p.2)))
    | _ => .error .attrErrorLower
  | .int _ lo hi =>
    match pyNum value with
    | some n =>
      if n < lo || n > hi then .error (.intOutOfRange lo hi n)
      else .ok (opt.name, value)
    | Option.none => .error .typeErrorCompare
  | .str _ => .ok (opt.name, value)

/-!
## `parsing.format_go_arguments` and the value objects of `models.py`
-/

/-- The full parameter list of `format_go_arguments`, in the order of the
Python signature. -/
structure GoArgs : Type where
  searchmoves : List String := []
  ponder : Bool := false
  wtime : Option Int := Option.none
  btime : Option Int := Option.none
  winc : Option Int := Option.none
  binc : Option Int := Option.none
  movestogo : Option Int := Option.none
  depth : Option Int := Option.none
  nodes : Option Int := Option.none
  mate : Option Int := Option.none
  movetime : Option Int := Option.none
  infinite : Bool := false
deriving DecidableEq, Repr

/-- The inner helper `_set(name, field)`: append `name` and `str(field)`
to the accumulated argument list if the field is not `None`. -/
def setArg (args : List String) (name : String) (field : Option Int) : List String :=
  match field with
  | Option.none => args
  | some v => args ++ [name, toString v]

/-- `parsing.format_go_arguments(...)`, mirroring the sequence of `_set`
calls and conditional appends of the source. -/
def format_go_arguments (g : GoArgs) : List String :=
  let args : List String := []
  let args := setArg args "wtime" g.wtime
  let args := setArg args "btime" g.btime
  let args := setArg args "winc" g.winc
  let args := setArg args "binc" g.binc
  let args := setArg args "movestogo" g.movestogo
  let args := setArg args "depth" g.depth
  let args := setArg args "nodes" g.nodes
  let args := setArg args "mate" g.mate
  let args := setArg args "movetime" g.movetime
  let args := if g.ponder then args ++ ["ponder"] else args
  let args := if g.infinite then args ++ ["infinite"] else args
  if g.searchmoves.isEmpty then args else args ++ ("searchmoves" :: g.searchmoves)

/-- `models.SearchConfig`: a pure value bag; note it has no ponder or
infinite field. -/
structure SearchConfig : Type where
  searchmoves : List String := []
  wtime : Option Int := Option.none
  btime : Option Int := Option.none
  winc : Option Int := Option.none
  binc : Option Int := Option.none
  movestogo : Option Int := Option.none
  depth : Option Int := Option.none
  nodes : Option Int := Option.none
  mate : Option Int := Option.none
  movetime : Option Int := Option.none
deriving DecidableEq, Repr

/-- `SearchConfig.render()`: `format_go_arguments(**dataclasses.asdict(self))`,
so `ponder` and `infinite` take their `False` defaults. -/
def SearchConfig.render (cfg : SearchConfig) : List String :=
  format_go_arguments
    { searchmoves := cfg.searchmoves, wtime := cfg.wtime, btime := cfg.btime,
      winc := cfg.winc, binc := cfg.binc, movestogo := cfg.movestogo,
      depth := cfg.depth, nodes := cfg.nodes, mate := cfg.mate,
      movetime := cfg.movetime }

/-- `models.Position`: a FEN string or a move list. -/
structure Position : Type where
  fen : Option String := Option.none
  moves : List String := []
deriving DecidableEq, Repr

/-- Python truthiness of the `fen` field (`None` and `""` are falsy). -/
def fenTruthy : Option String → Bool
  | Option.none => false
  | some s => pyTruthyStr s

/-- Constructing a `Position`: `__post_init__` raises `ValueError` iff
`self.fen and self.moves` is truthy. -/
def mkPosition (fen : Option String) (moves : List String) : Except Err Position :=
  if fenTruthy fen && !moves.isEmpty then .error .invalidPosition
  else .ok { fen := fen, moves := moves }

/-- `UciConnection.position(fen, moves)`: the wire line it writes, or the
`ValueError` it raises when both arguments are truthy. -/
def positionCmd (p : Position) : Except Err String :=
  if fenTruthy p.fen && !p.moves.isEmpty then .error .fenAndMoves
  else if fenTruthy p.fen then .ok ("position fen " ++ p.fen.getD "")
  else .ok ("position startpos moves " ++ String.intercalate " " p.moves)

/-!
## The session state machine of `__init__.py`

`Connection` is embedded as explicit state passing under the cooperative
single-threaded scheduling of §5 of the source's design: exactly one
logical thread plus one background Reader Loop per active search.  The one
suspension point whose semantics matters here, `await self._search._done.wait()`
inside `Connection._stop`, is modelled by its resumption condition: the
wait completes exactly when the bound Reader Loop has run
`self._search._done.set()`, so the state at resumption records
`done = true` for the search being drained.
-/

/-- The mutable state of a `models.Search` instance. -/
structure SearchSt : Type where
  id : String
  position : Position
  config : SearchConfig
  engineOptions : List (String × PyVal)
  info : List String := []
  bestmove : Option String := Option.none
  done : Bool := false
  wasStopped : Bool := false
  /-- Whether `_stop_func` is still the bound partial of `Connection._stop`
  (as opposed to the `_async_noop` rebinding done while draining). -/
  stopConnected : Bool := true
deriving DecidableEq, Repr

/-- The state of a `Connection` plus the outbound wire.  `sent` records
every line written to the engine, in order.  `retired` is a verification
ghost: it collects each search at the moment `Connection._stop` releases
it (`self._search = None`), so theorems can speak about searches that the
session has drained. -/
structure Conn : Type where
  options : List (String × Opt) := []
  appliedOptions : List (String × PyVal) := []
  search : Option SearchSt := Option.none
  sent : List String := []
  retired : List SearchSt := []
deriving DecidableEq, Repr

/-- Write one line to the engine. -/
def sendCmd (c : Conn) (cmd : String) : Conn :=
  { c with sent := c.sent ++ [cmd] }

/-- Python truthiness of the `search_id` argument of `Connection._stop`
(`if search_id and ...`): `None` and the empty string are falsy. -/
def pyTruthyToken : Option String → Bool
  | Option.none => false
  | some s => pyTruthyStr s

/-- `Connection._stop(search_id=None)`.  Sends the wire stop command; if a
search is active, marks it `_was_stopped`; a truthy, mismatched
`search_id` then returns; otherwise rebinds `_stop_func` to the no-op,
waits for `done` (see the section comment) and releases the search. -/
def Conn.stop (c : Conn) (searchId : Option String) : Conn :=
  let c := sendCmd c "stop"
  match c.search with
  | Option.none => c
  | some a =>
    let a := { a with wasStopped := true }
    if pyTruthyToken searchId && !(searchId == some a.id) then
      { c with search := some a }
    else
      let a := { a with stopConnected := false, done := true }
      { c with search := Option.none, retired := c.retired ++ [a] }

/-- `UciConnection.setoption(name, value)`: the wire line written. -/
def setoptionLine (name : String) (value : PyVal) : String :=
  match value with
  | .none => "setoption name " ++ name
  | v => "setoption name " ++ name ++ " value " ++ pyValStr v

/-- The `for name, value in options.items()` loop body of
`Connection.set_options`: look the descriptor up under the lowercased
name (`KeyError` when absent), format, send.  Stops at the first raised
exception, leaving the commands already written in place. -/
def applyPairs : Conn → List (String × PyVal) → Conn × Option Err
  | c, [] => (c, Option.none)
  | c, (name, value) :: rest =>
    match pyDictGet c.options (pyLower name) with
    | Option.none => (c, some (.unknownOption name))
    | some opt =>
      match format_set_option opt (some value) with
      | .error e => (c, some e)
      | .ok (n, v) => applyPairs (sendCmd c (setoptionLine n v)) rest

/-- `Connection.set_options(**options)`: stop first, run the loop, and —
only after the whole loop finished without an exception — run
`self._set_options.update(options)`. -/
def Conn.set_options (c : Conn) (pairs : List (String × PyVal)) : Conn × Option Err :=
  let c := Conn.stop c Option.none
  match applyPairs c pairs with
  | (c, some e) => (c, some e)
  | (c, Option.none) =>
    ({ c with appliedOptions := pyDictUpdate c.appliedOptions pairs }, Option.none)

/-- The `Search` instance built by `Connection.search`: fresh identity
token, deep copy of `_set_options`, empty info, no result, unset signals,
`_stop_func` bound to the session's `_stop` with this token. -/
def newSearch (fid : String) (p : Position) (cfg : SearchConfig)
    (opts : List (String × PyVal)) : SearchSt :=
  { id := fid, position := p, config := cfg, engineOptions := opts }

/-- `Connection.search(position=..., config=...)` up to and including the
creation of the new `Search` and its storage as the active search.  The
fresh `secrets.token_hex(16)` value is passed in as `fid`.  The reads done
by `isready` do not affect session state and are not tracked; starting the
Reader Loop task is represented by the returned active `SearchSt` that the
loop is bound to. -/
def Conn.searchOp (c : Conn) (pos : Option Position) (cfg : Option SearchConfig)
    (fid : String) : Conn × Option Err :=
  let p := pos.getD {}
  let config := cfg.getD {}
  let c := Conn.stop c Option.none
  let c := sendCmd c "ucinewgame"
  match positionCmd p with
  | .error e => (c, some e)
  | .ok cmd =>
    let c := sendCmd c cmd
    let c := sendCmd c "isready"
    let c := sendCmd c ("go " ++ String.intercalate " " config.render)
    -- here the source asserts `self._search is None`
    ({ c with search := some (newSearch fid p config c.appliedOptions) }, Option.none)

/-!
## `connection.read`, `connection.read_until` and `Connection._run_search`

`read` wraps `proc.stdout.readline()` in a `while True` loop.  A stream
that has ended keeps returning an empty line from `readline()` (asyncio's
`StreamReader.readline` yields `b""` at end of file), which `read`
decodes, strips and yields — the generator itself never finishes.  The
stream is modelled as the finite list of real lines followed by the
empty lines the exhausted pipe produces.
-/

/-- The `n`-th value yielded by `read`: the stripped `n`-th stream line,
or the stripped empty line the exhausted pipe returns forever. -/
def lineAt (stream : List String) (n : Nat) : String :=
  pyStrip (stream.getD n "")

/-- The observable state the Reader Loop mutates: the bound search's info
list, result and `done` signal (the pulsed `_progress` events carry no
persistent state). -/
structure LoopSt : Type where
  info : List String := []
  bestmove : Option String := Option.none
  done : Bool := false
deriving DecidableEq, Repr

/-- `Connection._run_search` run for `fuel` iterations of its
`async for line in read(...)` loop, starting at stream position `i`: an
`info` line is appended and progress pulsed; a `bestmove` line is stored,
progress pulsed, the loop broken and `done` set; any other line is
skipped.  Exhausted fuel returns the state of the still-running loop. -/
def runReader : Nat → List String → Nat → LoopSt → LoopSt
  | 0, _, _, s => s
  | fuel + 1, stream, i, s =>
    let line := lineAt stream i
    if pyStartswith line "info" then
      runReader fuel stream (i + 1) { s with info := s.info ++ [line] }
    else if pyStartswith line "bestmove" then
      { s with bestmove := some line, done := true }
    else
      runReader fuel stream (i + 1) s

/-- `connection.read_until(conn, pattern)` run for `fuel` loop iterations
from stream position `i`: yields each line, and finishes right after the
first line on which `pattern.match` succeeds.  Returns the lines yielded
so far and whether the generator has finished. -/
def runReadUntil (p : String → Bool) :
    Nat → List String → Nat → List String × Bool
  | 0, _, _ => ([], false)
  | fuel + 1, stream, i =>
    let line := lineAt stream i
    if p line then ([line], true)
    else
      let r := runReadUntil p fuel stream (i + 1)
      (line :: r.1, r.2)

/-!
## Spec-shaped definitions

The following two definitions transcribe the specification's wording
(§4.2 and §4.4) rather than the source, to be compared with the source
embeddings by refinement theorems.
-/

/-- One `<name> <value>` token pair of §4.4, present only if the field is. -/
def pairTok (name : String) (v : Option Int) : List String :=
  match v with
  | Option.none => []
  | some n => [name, toString n]

/-- Specification §4.4 `renderGoArguments`, written as the concatenation it
describes: the nine numeric pairs in fixed order, then the `ponder` flag,
then the `infinite` flag, then `searchmoves` with the moves last if the
restricted move list is non-empty. -/
def renderGoSpec (g : GoArgs) : List String :=
  pairTok "wtime" g.wtime ++ pairTok "btime" g.btime ++ pairTok "winc" g.winc ++
  pairTok "binc" g.binc ++ pairTok "movestogo" g.movestogo ++
  pairTok "depth" g.depth ++ pairTok "nodes" g.nodes ++ pairTok "mate" g.mate ++
  pairTok "movetime" g.movetime ++
  (if g.ponder then ["ponder"] else []) ++
  (if g.infinite then ["infinite"] else []) ++
  (if g.searchmoves.isEmpty then [] else "searchmoves" :: g.searchmoves)

/-- Specification §4.2 `parseOptionLine`, branching directly on the
protocol type token as the spec lists the cases, amended where claim C7
fails on the source: a grammar-matching line with an unrecognized type
token raises a lookup error instead of yielding none, and a spin or combo
line whose default payload is absent raises. -/
def extractOptionSpec (line : String) : Except Err (Option Opt) :=
  match optionMatch line with
  | Option.none => .ok Option.none
  | some (name, tok, rest) =>
    if tok = "string" then .ok (some { name := name, data := .str rest })
    else if tok = "spin" then
      match rest with
      | Option.none => .error .typeErrorSpinNone
      | some payload =>
        match intMatch payload with
        | Option.none => .error (.malformedSpin payload)
        | some (d, lo, hi) => .ok (some { name := name, data := .int d lo hi })
    else if tok = "combo" then
      match rest with
      | Option.none => .error .attrErrorComboNone
      | some payload =>
        let values := (pySplit payload "var").map pyStrip
        .ok (some { name := name,
                    data := .enum (values.headD "")
                      (pyDict ((values.drop 1).map (fun x => (pyLower x, x)))) })
    else if tok = "button" then .ok (some { name := name, data := .func })
    else if tok = "check" then .ok (some { name := name, data := .bool (rest == some "true") })
    else .error (.keyErrorType tok)

/-!
## Helper lemmas
-/

lemma setArg_eq_append (args : List String) (name : String) (f : Option Int) :
    setArg args name f = args ++ pairTok name f := by
  cases f <;> simp [setArg, pairTok]

lemma ite_append_right (b : Bool) (x y : List String) :
    (if b then x ++ y else x) = x ++ (if b then y else []) := by
  cases b <;> simp

lemma ite_append_left (b : Bool) (x y : List String) :
    (if b then x else x ++ y) = x ++ (if b then [] else y) := by
  cases b <;> simp

/-!
## Claim theorems
-/

/-- C8: `format_go_arguments` emits tokens in the fixed order wtime,
btime, winc, binc, movestogo, depth, nodes, mate, movetime (each as a
name/value pair only when present), then the `ponder` flag if set, then
the `infinite` flag if set, then `searchmoves` followed by the moves last
when the restricted move list is non-empty; omitted fields contribute no
tokens.  `SearchConfig.render` is this renderer with the two flags unset,
and the spec's two worked examples evaluate as stated. -/
theorem C8_go_argument_order :
    (∀ g : GoArgs, format_go_arguments g = renderGoSpec g)
    ∧ (∀ cfg : SearchConfig, SearchConfig.render cfg =
        renderGoSpec
          { searchmoves := cfg.searchmoves, wtime := cfg.wtime, btime := cfg.btime,
            winc := cfg.winc, binc := cfg.binc, movestogo := cfg.movestogo,
            depth := cfg.depth, nodes := cfg.nodes, mate := cfg.mate,
            movetime := cfg.movetime })
    ∧ format_go_arguments { depth := some 20 } = ["depth", "20"]
    ∧ format_go_arguments
        { wtime := some 1000, btime := some 1000, searchmoves := ["e2e4", "d2d4"] } =
        ["wtime", "1000", "btime", "1000", "searchmoves", "e2e4", "d2d4"] := by
  have hmain : ∀ g : GoArgs, format_go_arguments g = renderGoSpec g := by
    intro g
    cases hp : g.ponder <;> cases hi : g.infinite <;>
      by_cases hs : g.searchmoves = [] <;>
        simp [format_go_arguments, renderGoSpec, setArg_eq_append, hp, hi, hs,
          List.append_assoc]
  refine ⟨hmain, fun cfg => hmain _, rfl, rfl⟩

/-- C5 counterexample: the claim says constructing a `Position` with
neither a FEN nor moves fails, but `Position.__post_init__` only rejects
the both-truthy case, so the all-default construction (the very value
`Connection.search` substitutes for a missing position) succeeds. -/
theorem C5_counter :
    mkPosition Option.none [] = Except.ok { fen := Option.none, moves := [] } := rfl

/-- C5 (amended): constructing a `Position` fails — with the
`InvalidPositionError` of the taxonomy — exactly when both a truthy FEN
(non-`None`, non-empty) and a non-empty move list are supplied; in every
other case, including neither supplied, construction succeeds. -/
theorem C5_position_validation (fen : Option String) (moves : List String) :
    mkPosition fen moves = Except.error Err.invalidPosition ↔
      ((∃ s, fen = some s ∧ s ≠ "") ∧ moves ≠ []) := by
  cases fen with
  | none => simp [mkPosition, fenTruthy]
  | some s =>
    by_cases hs : s = ""
    · subst hs
      simp [mkPosition, fenTruthy, pyTruthyStr]
    · by_cases hm : moves = []
      · subst hm
        simp [mkPosition, fenTruthy, pyTruthyStr, hs]
      · simp [mkPosition, fenTruthy, pyTruthyStr, hs, hm,
          List.isEmpty_iff.not.mpr hm]

/-- The Ponder descriptor parsed from
`option name Ponder type check default false`. -/
def ponderOpt : Opt := { name := "Ponder", data := .bool false }

/-- C10: for a bool descriptor, `format_set_option` coerces the supplied
value by generic Python truthiness (`bool(value)`), not boolean identity:
any truthy value — including the non-empty string "false" — renders as the
wire value "true", and every falsy value (`False`, `0`, the empty string,
`None`) renders as "false". -/
theorem C10_bool_truthiness :
    (∀ (name : String) (dflt : Bool) (v : PyVal),
        format_set_option { name := name, data := .bool dflt } (some v) =
          Except.ok (name, .str (if pyBool v then "true" else "false")))
    ∧ format_set_option ponderOpt (some (.str "false")) = Except.ok ("Ponder", .str "true")
    ∧ format_set_option ponderOpt (some (.bool false)) = Except.ok ("Ponder", .str "false")
    ∧ format_set_option ponderOpt (some (.int 0)) = Except.ok ("Ponder", .str "false")
    ∧ format_set_option ponderOpt (some (.str "")) = Except.ok ("Ponder", .str "false")
    ∧ format_set_option ponderOpt (some .none) = Except.ok ("Ponder", .str "false") := by
  refine ⟨fun name dflt v => rfl, rfl, rfl, rfl, rfl, rfl⟩

/-- The descriptor `extract_option` builds from the Analysis Contempt
combo line of the spec's worked example. -/
def analysisContemptOpt : Opt :=
  { name := "Analysis Contempt",
    data := .enum "Both" [("off", "Off"), ("white", "White"), ("black", "Black"), ("both", "Both")] }

/-- C9: parsing a combo line keys each allowed value by its lowercased
form while storing the original casing; `format_set_option` matches a
supplied enum value case-insensitively, returning the canonical-cased
wire form on a match and failing with the error naming the allowed set
otherwise.  Concretely, the Analysis Contempt line parses to the stated
descriptor and formatting "WHITE" against it yields
("Analysis Contempt", "White"). -/
theorem C9_enum_case_insensitive :
    (∀ (name dflt : String) (vals : List (String × String)) (v : String),
        format_set_option { name := name, data := .enum dflt vals } (some (.str v)) =
          match pyDictGet vals (pyLower v) with
          | some canon => Except.ok (name, .str canon)
          | Option.none => Except.error (.enumBadValue v (vals.map (fun p => p.2))))
    ∧ extract_option
        "option name Analysis Contempt type combo default Both var Off var White var Black var Both" =
        Except.ok (some analysisContemptOpt)
    ∧ format_set_option analysisContemptOpt (some (.str "WHITE")) =
        Except.ok ("Analysis Contempt", .str "White")
    ∧ format_set_option analysisContemptOpt (some (.str "purple")) =
        Except.error (.enumBadValue "purple" ["Off", "White", "Black", "Both"]) := by
  refine ⟨?_, rfl, rfl, rfl⟩
  intro name dflt vals v
  cases hfind : vals.find? (fun p => p.1 == pyLower v) with
  | none =>
    have hany : vals.any (fun p => p.1 == pyLower v) = false := by
      rw [Bool.eq_false_iff]
      intro hx
      obtain ⟨p, hp, hpe⟩ := List.any_eq_true.mp hx
      exact absurd (List.find?_eq_none.mp hfind p hp) (by simp [hpe])
    simp [format_set_option, pyDictGet, hfind, hany]
  | some pr =>
    have hp := List.find?_some hfind
    have hmem := List.mem_of_find?_eq_some hfind
    have hany : vals.any (fun p => p.1 == pyLower v) = true :=
      List.any_eq_true.mpr ⟨pr, hmem, hp⟩
    simp [format_set_option, pyDictGet, hfind, hany]

/-- An example session state with an active, still-running search whose
identity token is "0f3c". -/
def c1aEx : SearchSt :=
  { id := "0f3c", position := {}, config := {}, engineOptions := [] }

/-- The session holding `c1aEx` as its active search. -/
def c1Ex : Conn := { search := some c1aEx }

/-- C1 counterexample: the claim says a stop with a mismatched token does
not mutate any field of the active Search, but `Connection._stop` runs
`self._search._was_stopped = True` before the token check, so the active
search comes back with its stopped flag newly set. -/
theorem C1_counter :
    (Conn.stop c1Ex (some "beef")).search ≠ some c1aEx
    ∧ (Conn.stop c1Ex (some "beef")).search = some { c1aEx with wasStopped := true } := by
  refine ⟨by decide, rfl⟩

/-- C1 (amended): a stop carrying a non-empty token different from the
active search's identity token sends the wire stop command and sets the
active search's stopped flag, and changes nothing else: the search's
info sequence, result, done state, identity, cancellation binding and
snapshots are untouched, the session keeps the same active-search
reference, and no other session field moves.  (The non-empty requirement
is forced by Python truthiness: `if search_id and ...` treats the empty
string like `None` and drains the active search.) -/
theorem C1_stale_stop_amended (c : Conn) (a : SearchSt) (t : String)
    (hs : c.search = some a) (hne : t ≠ "") (hid : t ≠ a.id) :
    Conn.stop c (some t) =
      { c with sent := c.sent ++ ["stop"], search := some { a with wasStopped := true } } := by
  have h1 : (t == "") = false := beq_eq_false_iff_ne.mpr hne
  have h2 : ((some t : Option String) == some a.id) = false := by
    rw [beq_eq_false_iff_ne]
    simpa using hid
  simp [Conn.stop, sendCmd, hs, pyTruthyToken, pyTruthyStr, h1, h2]

/-- C1 witness: the amended statement applied at the concrete session
`c1Ex` and the mismatched token "beef". -/
theorem C1_stale_stop_witness :
    Conn.stop c1Ex (some "beef") =
      { c1Ex with sent := c1Ex.sent ++ ["stop"],
                  search := some { c1aEx with wasStopped := true } } :=
  C1_stale_stop_amended c1Ex c1aEx "beef" rfl (by decide) (by decide)

lemma applyPairs_appliedOptions (pairs : List (String × PyVal)) :
    ∀ c : Conn, (applyPairs c pairs).1.appliedOptions = c.appliedOptions := by
  induction pairs with
  | nil => intro c; rfl
  | cons pair rest ih =>
    intro c
    obtain ⟨name, value⟩ := pair
    unfold applyPairs
    cases hopt : pyDictGet c.options (pyLower name) with
    | none => rfl
    | some opt =>
      cases hfmt : format_set_option opt (some value) with
      | error e => simp [hopt, hfmt]
      | ok nv =>
        obtain ⟨n2, v2⟩ := nv
        simp [hopt, hfmt, sendCmd, ih]

lemma stop_appliedOptions (c : Conn) (t : Option String) :
    (Conn.stop c t).appliedOptions = c.appliedOptions := by
  cases hc : c.search with
  | none => simp [Conn.stop, sendCmd, hc]
  | some a =>
    simp only [Conn.stop, sendCmd, hc]
    split <;> rfl

/-- The concrete session for the C4 counterexample: one advertised
option, nothing applied yet, no active search. -/
def c4Ex : Conn := { options := [("ponder", ponderOpt)] }

/-- The `set_options` pair list of the C4 counterexample: a known option
followed by an unknown one. -/
def c4Pairs : List (String × PyVal) := [("Ponder", .bool true), ("Foo", .int 1)]

/-- C4 counterexample: the claim says a pair already sent before a
mid-sequence failure "remains recorded in appliedOptions", but
`Connection.set_options` runs `self._set_options.update(options)` only
after the whole loop: here the Ponder pair is sent on the wire, the next
pair fails the lookup, and `appliedOptions` stays empty. -/
theorem C4_counter :
    (Conn.set_options c4Ex c4Pairs).2 = some (Err.unknownOption "Foo")
    ∧ (Conn.set_options c4Ex c4Pairs).1.sent =
        ["stop", "setoption name Ponder value true"]
    ∧ (Conn.set_options c4Ex c4Pairs).1.appliedOptions = [] :=
  ⟨rfl, rfl, rfl⟩

/-- C4 (amended): `set_options` processes its pairs in order — descriptor
lookup by lowercased name (failing when absent), value formatting, then
the wire setoption command — but records into `appliedOptions` only after
the entire sequence has succeeded, and then records every pair at once;
when a failure occurs mid-sequence the earlier pairs have been sent to
the engine yet `appliedOptions` is left entirely unchanged. -/
theorem C4_applied_recording (c : Conn) (pairs : List (String × PyVal)) :
    (Conn.set_options c pairs).1.appliedOptions =
      (if ((Conn.set_options c pairs).2).isSome then c.appliedOptions
       else pyDictUpdate c.appliedOptions pairs) := by
  unfold Conn.set_options
  have hbase := applyPairs_appliedOptions pairs (Conn.stop c Option.none)
  rw [stop_appliedOptions] at hbase
  cases hap : applyPairs (Conn.stop c Option.none) pairs with
  | mk c2 e =>
    rw [hap] at hbase
    simp at hbase
    cases e <;> simp [hap, hbase]

lemma stop_none_search (c : Conn) : (Conn.stop c Option.none).search = Option.none := by
  cases hc : c.search <;> simp [Conn.stop, sendCmd, hc, pyTruthyToken]

lemma stop_none_retired_all_done (c : Conn) :
    ((Conn.stop c Option.none).retired.all (fun a => a.done)) =
      c.retired.all (fun a => a.done) := by
  cases hc : c.search <;> simp [Conn.stop, sendCmd, hc, pyTruthyToken, List.all_append]

/-- C2: on one session, `search()` always runs the internal stop barrier
first, and that barrier leaves no active search behind — so at the point
where the new `Search` is created the `activeSearch` reference is `None`
(the source's own assertion), every search the session has ever released
has its `done` signal set (the previous Reader Loop has run to its final
statement before the new one starts), and the newly stored search is the
fresh one with unset signals. -/
theorem C2_single_active_search (c : Conn) (pos : Option Position)
    (cfg : Option SearchConfig) (fid : String) :
    (Conn.stop c Option.none).search = Option.none
    ∧ ((Conn.searchOp c pos cfg fid).1.retired.all (fun a => a.done))
        = c.retired.all (fun a => a.done)
    ∧ (Conn.searchOp c pos cfg fid).1.search =
        (match positionCmd (pos.getD {}) with
         | .error _ => Option.none
         | .ok _ => some (newSearch fid (pos.getD {}) (cfg.getD {}) c.appliedOptions)) := by
  refine ⟨stop_none_search c, ?_, ?_⟩
  · unfold Conn.searchOp
    cases hcmd : positionCmd (pos.getD {}) <;>
      simp [hcmd, sendCmd, stop_none_retired_all_done]
  · unfold Conn.searchOp
    cases hcmd : positionCmd (pos.getD {}) <;>
      simp [hcmd, sendCmd, stop_none_search, stop_appliedOptions]

lemma runReader_done_of_no_bestmove (stream : List String)
    (h : ∀ i, pyStartswith (lineAt stream i) "bestmove" = false) :
    ∀ fuel i s, (runReader fuel stream i s).done = s.done := by
  intro fuel
  induction fuel with
  | zero => intro i s; rfl
  | succ n ih =>
    intro i s
    unfold runReader
    cases hinfo : pyStartswith (lineAt stream i) "info" <;>
      simp [hinfo, h i, ih]

/-- C3: on the failing input — a stream that ends after one info line,
with the exhausted pipe returning empty lines forever — the Reader Loop
of `Connection._run_search` never breaks and never reaches
`self._search._done.set()`: however many loop iterations run, `done`
stays unset, where the claim requires the loop to terminate and set it. -/
theorem C3_reader_loop_never_done :
    ∀ fuel : Nat,
      (runReader fuel ["info depth 1 seldepth 1"] 0 {}).done = false :=
  fun fuel =>
    runReader_done_of_no_bestmove ["info depth 1 seldepth 1"]
      (fun i => match i with
        | 0 => rfl
        | _ + 1 => rfl)
      fuel 0 {}

lemma runReadUntil_not_finished (p : String → Bool) (stream : List String)
    (h : ∀ i, p (lineAt stream i) = false) :
    ∀ fuel i, (runReadUntil p fuel stream i).2 = false := by
  intro fuel
  induction fuel with
  | zero => intro i; rfl
  | succ n ih =>
    intro i
    unfold runReadUntil
    simp [h i, ih]

/-- C6: on a stream that ends before any matching line — here the empty
stream with the handshake predicate matching lines that start with
"uciok" — `read_until` keeps yielding the stripped empty lines `read`
produces at end of file and never finishes: no number of loop iterations
completes the generator, where the claim requires the produced sequence
to be finite. -/
theorem C6_read_until_never_finishes :
    ∀ fuel : Nat,
      (runReadUntil (fun l => pyStartswith l "uciok") fuel [] 0).2 = false :=
  fun fuel =>
    runReadUntil_not_finished (fun l => pyStartswith l "uciok") []
      (fun _ => rfl) fuel 0

/-- C7 counterexample: the claim says a line whose type token is not one
of string/spin/combo/button/check yields none, but the line below matches
`OPTION_RE` with type token "banana" and `extract_option` then raises a
`KeyError` from the type-map lookup instead of returning `None`. -/
theorem C7_counter :
    extract_option "option name X type banana default y" =
      Except.error (Err.keyErrorType "banana") := rfl

/-- C7 (amended): `extract_option` agrees everywhere with the §4.2
specification amended as the counterexample forces: a line not matching
the grammar yields none; a matching line with a recognized type token
yields the descriptor with exactly its type's fields, spin lines with a
bad integer payload failing as specified; a matching line with an
unrecognized type token raises a lookup error rather than yielding none
(and a spin or combo line with a missing default payload raises). -/
theorem C7_extract_option_matches_spec (line : String) :
    extract_option line = extractOptionSpec line := by
  unfold extract_option extractOptionSpec
  cases hm : optionMatch line with
  | none => rfl
  | some trip =>
    obtain ⟨n, t, d⟩ := trip
    by_cases h1 : t = "string"
    · subst h1; rfl
    · by_cases h2 : t = "spin"
      · subst h2; rfl
      · by_cases h3 : t = "combo"
        · subst h3; rfl
        · by_cases h4 : t = "button"
          · subst h4; rfl
          · by_cases h5 : t = "check"
            · subst h5; rfl
            · simp [typeMap, h1, h2, h3, h4, h5]

end Buscemi
